import Mathlib

/-!
Shallow embedding of the fitness-tracker application (`src/workout.py`).

The SQLite store is modelled as four lists of rows (`users`, `workouts`,
`challenges`, `challenge_participants`), kept in insertion order, which is
the order in which `fetchall`/`fetchone` traverse rows for the simple
queries the program issues.  Each Python function that reads or writes the
store becomes a pure Lean function over this state.  SQLite INTEGER columns
are modelled as `Int` (`id` columns, always generated positive, as `Nat`),
TEXT columns as `String`.
-/

namespace FitnessApp

/-- A row of the `users` table: `{id, username, password, name, email}`. -/
structure User where
  id : Nat
  username : String
  password : String
  name : String
  email : String
deriving Repr, DecidableEq

/-- A row of the `workouts` table:
`{id, user_id, workout_type, duration, calories_burned}`. -/
structure Workout where
  id : Nat
  user_id : Nat
  workout_type : String
  duration : Int
  calories_burned : Int
deriving Repr, DecidableEq

/-- A row of the `challenges` table. -/
structure Challenge where
  id : Nat
  user_id : Nat
  challenge_name : String
  goal : Int
  challenge_type : String
deriving Repr, DecidableEq

/-- A row of the `challenge_participants` join table. -/
structure ChallengeParticipant where
  user_id : Nat
  challenge_id : Nat
deriving Repr, DecidableEq

/-- The whole database state: the four tables, rows in insertion order. -/
structure DB where
  users : List User
  workouts : List Workout
  challenges : List Challenge
  challenge_participants : List ChallengeParticipant
deriving Repr, DecidableEq

/-- AUTOINCREMENT id generation for the `users` table: one more than the
largest id present. -/
def nextUserId (db : DB) : Nat :=
  (db.users.map User.id).foldr max 0 + 1

/-- AUTOINCREMENT id generation for the `workouts` table. -/
def nextWorkoutId (db : DB) : Nat :=
  (db.workouts.map Workout.id).foldr max 0 + 1

/-- AUTOINCREMENT id generation for the `challenges` table. -/
def nextChallengeId (db : DB) : Nat :=
  (db.challenges.map Challenge.id).foldr max 0 + 1

/-- `check_user(username)`: `SELECT * FROM users WHERE username = ?` then
`fetchone()` — the first row whose username matches, if any. -/
def checkUser (db : DB) (username : String) : Option User :=
  db.users.find? (fun u => u.username = username)

/-- `add_user(username, password, name, email)`: inserts one row into
`users` with a generated id. -/
def addUser (db : DB) (username password name email : String) : DB :=
  { db with users := db.users ++
      [{ id := nextUserId db, username := username, password := password,
         name := name, email := email }] }

/-- `verify_user(username, password)`: looks the user up by username and
returns the row when the stored password equals the supplied one exactly,
`None` otherwise.  The Python conjunction `user and user[2] == password`
short-circuits when the lookup failed. -/
def verifyUser (db : DB) (username password : String) : Option User :=
  match checkUser db username with
  | some u => if u.password = password then some u else none
  | none => none

/-- `log_workout(user_id, workout_type, duration, calories_burned)`:
inserts one row into `workouts`; no validation of any argument. -/
def logWorkout (db : DB) (user_id : Nat) (workout_type : String)
    (duration calories_burned : Int) : DB :=
  { db with workouts := db.workouts ++
      [{ id := nextWorkoutId db, user_id := user_id,
         workout_type := workout_type, duration := duration,
         calories_burned := calories_burned }] }

/-- `create_challenge(user_id, challenge_name, goal, challenge_type)`:
inserts one row into `challenges`. -/
def createChallenge (db : DB) (user_id : Nat) (challenge_name : String)
    (goal : Int) (challenge_type : String) : DB :=
  { db with challenges := db.challenges ++
      [{ id := nextChallengeId db, user_id := user_id,
         challenge_name := challenge_name, goal := goal,
         challenge_type := challenge_type }] }

/-- `join_challenge(user_id, challenge_id)`: inserts one row into
`challenge_participants`; no membership or existence check of any kind. -/
def joinChallenge (db : DB) (user_id challenge_id : Nat) : DB :=
  { db with challenge_participants := db.challenge_participants ++
      [{ user_id := user_id, challenge_id := challenge_id }] }

/-- `reset_password(username, new_password)`:
`UPDATE users SET password = ? WHERE username = ?` — every row whose
username matches gets the new password; nothing else changes. -/
def resetPassword (db : DB) (username new_password : String) : DB :=
  { db with users := db.users.map (fun u =>
      if u.username = username then { u with password := new_password }
      else u) }

/-- The inner join `FROM workouts JOIN users ON workouts.user_id = users.id`,
projected to `(users.username, workouts.calories_burned)` pairs. -/
def joinedRows (db : DB) : List (String × Int) :=
  db.workouts.flatMap (fun w =>
    (db.users.filter (fun u => u.id = w.user_id)).map
      (fun u => (u.username, w.calories_burned)))

/-- `SUM(workouts.calories_burned)` within the group of joined rows sharing
one username. -/
def totalCaloriesFor (rows : List (String × Int)) (n : String) : Int :=
  ((rows.filter (fun r => r.1 = n)).map Prod.snd).sum

/-- The `GROUP BY users.username` result of the leaderboard query, one
`(username, total_calories)` pair per distinct username of a joined row,
before the `ORDER BY`. -/
def leaderboardRows (db : DB) : List (String × Int) :=
  ((joinedRows db).map Prod.fst).dedup.map
    (fun n => (n, totalCaloriesFor (joinedRows db) n))

/-- The `ORDER BY total_calories DESC` relation: `a` may precede `b` when
`a`'s total is at least `b`'s. -/
def lbRel (a b : String × Int) : Prop := b.2 ≤ a.2

instance : DecidableRel lbRel := fun a b =>
  inferInstanceAs (Decidable (b.2 ≤ a.2))

instance : IsTotal (String × Int) lbRel :=
  ⟨fun a b => le_total b.2 a.2⟩

instance : IsTrans (String × Int) lbRel :=
  ⟨fun _ _ _ hab hbc => le_trans hbc hab⟩

/-- `display_leaderboard()`: the grouped totals ordered by descending total
calories (SQLite leaves tie order unspecified; insertion sort realises one
admissible order). -/
def displayLeaderboard (db : DB) : List (String × Int) :=
  List.insertionSort lbRel (leaderboardRows db)

/-- `SELECT workout_type, duration, calories_burned FROM workouts WHERE
user_id = ?` — the rows of one user, in insertion order. -/
def userWorkouts (db : DB) (uid : Nat) : List Workout :=
  db.workouts.filter (fun w => w.user_id = uid)

/-- The per-user summary shown by the dashboard. -/
structure UserSummary where
  count : Nat
  totalDuration : Int
  totalCalories : Int
  caloriesByType : List (String × Int)
deriving Repr, DecidableEq

/-- The aggregation performed by `user_dashboard`: `len(df)`,
`df["Duration"].sum()`, `df["Calories"].sum()` (pandas sums modelled as
left folds over the fetched rows) and
`df.groupby("Workout")["Calories"].sum()` (one total per distinct type). -/
def computeUserSummary (db : DB) (uid : Nat) : UserSummary :=
  let rows := userWorkouts db uid
  { count := rows.length
    totalDuration := rows.foldl (fun acc w => acc + w.duration) 0
    totalCalories := rows.foldl (fun acc w => acc + w.calories_burned) 0
    caloriesByType := ((rows.map Workout.workout_type).dedup).map
      (fun t => (t, (rows.filter (fun w => w.workout_type = t)).foldl
        (fun acc w => acc + w.calories_burned) 0)) }

/-- The content of the PDF produced by `generate_report`: identity lines,
the three totals lines, and one log line per workout row. -/
structure Report where
  name : String
  username : String
  email : String
  totalWorkouts : Nat
  totalDuration : Int
  totalCalories : Int
  logLines : List (String × Int × Int)
deriving Repr, DecidableEq

/-- `SELECT username, name, email FROM users WHERE id = ?` then
`fetchone()`. -/
def findUserById (db : DB) (uid : Nat) : Option User :=
  db.users.find? (fun u => u.id = uid)

/-- `generate_report(user_id)`: fetches the user row and the user's
workouts and lays the document out.  When no user row exists the Python
code fails on `user[1]` (`None` is not subscriptable), modelled as `none`;
otherwise the document is produced (an empty workout list sums to 0 in
pandas and yields no log lines). -/
def generateReport (db : DB) (uid : Nat) : Option Report :=
  match findUserById db uid with
  | none => none
  | some u =>
    let rows := userWorkouts db uid
    some { name := u.name, username := u.username, email := u.email,
           totalWorkouts := rows.length,
           totalDuration := rows.foldl (fun acc w => acc + w.duration) 0,
           totalCalories := rows.foldl (fun acc w => acc + w.calories_burned) 0,
           logLines := rows.map
             (fun w => (w.workout_type, w.duration, w.calories_burned)) }

/-- Outcome of the signup flow in `main`. -/
inductive SignupResult where
  | duplicateUsername
  | accountCreated
deriving Repr, DecidableEq

/-- The signup flow of `main`: `if check_user(username): error` else
`add_user(...)`. -/
def signup (db : DB) (username password name email : String) :
    SignupResult × DB :=
  if (checkUser db username).isSome then (SignupResult.duplicateUsername, db)
  else (SignupResult.accountCreated, addUser db username password name email)

/-- The invariant the spec states for workout rows: duration at least 1 and
calories non-negative. -/
def WorkoutInv (w : Workout) : Prop :=
  1 ≤ w.duration ∧ 0 ≤ w.calories_burned

/-- Every workout row in the store satisfies `WorkoutInv`. -/
def DBInv (db : DB) : Prop :=
  ∀ w ∈ db.workouts, WorkoutInv w

/-- A demo store built through the operations themselves: "alice" (id 1)
logs a 30 min/300 cal run and a 20 min/150 cal cycle, "bob" (id 2) logs a
45 min/800 cal run, "carol" (id 3) logs nothing. -/
def demoDB : DB :=
  logWorkout (logWorkout (logWorkout
    (signup (signup (signup ⟨[], [], [], []⟩
      "alice" "pw" "Alice" "alice@x.com").2
      "bob" "pw2" "Bob" "bob@x.com").2
      "carol" "pw3" "Carol" "carol@x.com").2
    1 "Running" 30 300) 1 "Cycling" 20 150) 2 "Running" 45 800

/-- A second demo store: "alice" totals 500 calories, "bob" totals 800. -/
def lbDB : DB :=
  logWorkout (logWorkout
    (signup (signup ⟨[], [], [], []⟩
      "alice" "pw" "Alice" "alice@x.com").2
      "bob" "pw2" "Bob" "bob@x.com").2
    1 "Running" 40 500) 2 "Cycling" 60 800

/-! ### Helper lemmas -/

/-- Accumulating a mapped value with `foldl (+)` computes the sum of the
mapped list, offset by the initial accumulator. -/
theorem foldl_add_eq_add_sum {α : Type} (f : α → Int) :
    ∀ (l : List α) (a : Int),
      l.foldl (fun acc x => acc + f x) a = a + (l.map f).sum
  | [], a => by simp
  | x :: xs, a => by
    simp only [List.foldl_cons, List.map_cons, List.sum_cons]
    rw [foldl_add_eq_add_sum f xs (a + f x), add_assoc]

/-- A list is `Forall₂`-related to its image under `f` by any relation
that holds pointwise between an element and its image. -/
theorem forall2_map_self {α : Type} (R : α → α → Prop) (f : α → α) :
    ∀ l : List α, (∀ a ∈ l, R a (f a)) → List.Forall₂ R l (l.map f)
  | [], _ => List.Forall₂.nil
  | x :: xs, h =>
    List.Forall₂.cons (h x (by simp))
      (forall2_map_self R f xs fun a ha => h a (by simp [ha]))

/-- `checkUser` succeeds exactly when some stored row has the username. -/
theorem checkUser_isSome_iff (db : DB) (u : String) :
    (checkUser db u).isSome ↔ ∃ r ∈ db.users, r.username = u := by
  simp [checkUser, List.find?_isSome]

/-- Looking a key up in the association list pairing each key of a
duplicate-free list with its image finds exactly that image. -/
theorem lookup_map_pair {l : List String} (hl : l.Nodup) (g : String → Int) :
    ∀ {t : String}, t ∈ l →
      (l.map (fun x => (x, g x))).lookup t = some (g t) := by
  induction l with
  | nil => intro t ht; cases ht
  | cons x xs ih =>
    intro t ht
    rw [List.nodup_cons] at hl
    rcases List.mem_cons.mp ht with rfl | hmem
    · simp [List.lookup]
    · have hne : t ≠ x := fun he => hl.1 (he ▸ hmem)
      have hbeq : (t == x) = false := beq_eq_false_iff_ne.mpr hne
      simpa [List.lookup, hbeq] using ih hl.2 hmem

/-! ### Claim theorems -/

/-- C1: the dashboard summary counts exactly the user's workout rows, its
duration and calorie totals are the sums over those rows, and each
logged workout type is grouped to the sum of the calories of the rows of
that type; on "alice"'s (Running, 30, 300) and (Cycling, 20, 150) this is
count 2, duration 50, calories 450, {Running: 300, Cycling: 150}. -/
theorem computeUserSummary_correct (db : DB) (uid : Nat) :
    (computeUserSummary db uid).count = (userWorkouts db uid).length ∧
    (computeUserSummary db uid).totalDuration =
      ((userWorkouts db uid).map Workout.duration).sum ∧
    (computeUserSummary db uid).totalCalories =
      ((userWorkouts db uid).map Workout.calories_burned).sum ∧
    ∀ t ∈ (userWorkouts db uid).map Workout.workout_type,
      (computeUserSummary db uid).caloriesByType.lookup t =
        some (((userWorkouts db uid).filter
          (fun w => w.workout_type = t)).map Workout.calories_burned).sum := by
  refine ⟨rfl, ?_, ?_, ?_⟩
  · show (userWorkouts db uid).foldl _ 0 = _
    rw [foldl_add_eq_add_sum, zero_add]
  · show (userWorkouts db uid).foldl _ 0 = _
    rw [foldl_add_eq_add_sum, zero_add]
  · intro t ht
    show (((userWorkouts db uid).map Workout.workout_type).dedup.map _).lookup t = _
    rw [lookup_map_pair (List.nodup_dedup _) _ (List.mem_dedup.mpr ht),
      foldl_add_eq_add_sum, zero_add]

/-- C1 witness: the "alice" scenario on the demo store, including the
concrete summary values. -/
theorem computeUserSummary_correct_witness :
    ((computeUserSummary demoDB 1).count = (userWorkouts demoDB 1).length ∧
      (computeUserSummary demoDB 1).totalDuration =
        ((userWorkouts demoDB 1).map Workout.duration).sum ∧
      (computeUserSummary demoDB 1).totalCalories =
        ((userWorkouts demoDB 1).map Workout.calories_burned).sum ∧
      ∀ t ∈ (userWorkouts demoDB 1).map Workout.workout_type,
        (computeUserSummary demoDB 1).caloriesByType.lookup t =
          some (((userWorkouts demoDB 1).filter
            (fun w => w.workout_type = t)).map Workout.calories_burned).sum) ∧
    computeUserSummary demoDB 1 =
      ⟨2, 50, 450, [("Running", 300), ("Cycling", 150)]⟩ :=
  ⟨computeUserSummary_correct demoDB 1, by decide⟩

/-- Under username uniqueness, filtering the user table by one stored
user's username yields exactly that user. -/
theorem filter_username_eq {users : List User}
    (h : (users.map User.username).Nodup) {u : User} (hu : u ∈ users) :
    users.filter (fun v => v.username = u.username) = [u] := by
  induction users with
  | nil => cases hu
  | cons a as ih =>
    simp only [List.map_cons, List.nodup_cons] at h
    rcases List.mem_cons.mp hu with rfl | hmem
    · have hnil : as.filter (fun v => v.username = u.username) = [] := by
        rw [List.filter_eq_nil_iff]
        intro x hx
        simp only [decide_eq_true_eq]
        intro hxeq
        exact h.1 (hxeq ▸ List.mem_map_of_mem User.username hx)
      simp [List.filter_cons, hnil]
    · have hne : ¬a.username = u.username := fun he =>
        h.1 (he ▸ List.mem_map_of_mem User.username hmem)
      simp only [List.filter_cons, decide_eq_true_eq, if_neg hne]
      exact ih h.2 hmem

/-- One workout's contribution to the joined rows carrying a given stored
user's username: its calories when the workout belongs to that user,
nothing otherwise. -/
theorem joined_filter_single {users : List User}
    (h : (users.map User.username).Nodup) {u : User} (hu : u ∈ users)
    (wid : Nat) (cal : Int) :
    ((((users.filter (fun v => v.id = wid)).map
        (fun v => (v.username, cal))).filter
          (fun r => r.1 = u.username)).map Prod.snd)
      = if wid = u.id then [cal] else [] := by
  rw [List.filter_map]
  have hcomp : ((users.filter (fun v => v.id = wid)).filter
      ((fun (r : String × Int) => decide (r.1 = u.username)) ∘
        (fun v => (v.username, cal))))
      = (users.filter (fun v => v.username = u.username)).filter
          (fun v => v.id = wid) := by
    rw [List.filter_filter, List.filter_filter]
    apply List.filter_congr
    intro a _
    simp only [Function.comp]
    exact Bool.and_comm _ _
  rw [hcomp, filter_username_eq h hu]
  by_cases hw : wid = u.id
  · simp [List.filter_cons, hw]
  · have hne : ¬u.id = wid := fun he => hw he.symm
    simp [List.filter_cons, hne, hw]

/-- The leaderboard group total of a stored user's username is the sum of
the calories of that user's workout rows. -/
theorem totalCaloriesFor_joined {users : List User}
    (h : (users.map User.username).Nodup) {u : User} (hu : u ∈ users) :
    ∀ ws : List Workout,
      totalCaloriesFor (ws.flatMap (fun w =>
          (users.filter (fun v => v.id = w.user_id)).map
            (fun v => (v.username, w.calories_burned)))) u.username
        = ((ws.filter (fun w => w.user_id = u.id)).map
            Workout.calories_burned).sum := by
  intro ws
  induction ws with
  | nil => simp [totalCaloriesFor]
  | cons w ws ih =>
    simp only [totalCaloriesFor, List.flatMap_cons, List.filter_append,
      List.map_append, List.sum_append] at ih ⊢
    rw [joined_filter_single h hu w.user_id w.calories_burned]
    by_cases hw : w.user_id = u.id <;>
      simp [hw, List.filter_cons, ih]

/-- C2: under the store's username-uniqueness invariant, the leaderboard
sequence is non-increasing in total calories, and each displayed total is
the sum of the calories burned over all workout rows of the user carrying
that username. -/
theorem displayLeaderboard_sorted (db : DB)
    (h : (db.users.map User.username).Nodup) :
    (displayLeaderboard db).Pairwise (fun a b => b.2 ≤ a.2) ∧
    ∀ pr ∈ displayLeaderboard db, ∀ u ∈ db.users, u.username = pr.1 →
      pr.2 = ((db.workouts.filter (fun w => w.user_id = u.id)).map
        Workout.calories_burned).sum := by
  constructor
  · exact List.sorted_insertionSort lbRel (leaderboardRows db)
  · intro pr hpr u hu huname
    rw [displayLeaderboard] at hpr
    have hpr' : pr ∈ leaderboardRows db :=
      (List.perm_insertionSort lbRel (leaderboardRows db)).mem_iff.mp hpr
    obtain ⟨n, _, heq⟩ := List.mem_map.mp hpr'
    have h1 : pr.1 = n := by rw [← heq]
    have h2 : pr.2 = totalCaloriesFor (joinedRows db) n := by rw [← heq]
    rw [h2, ← h1, ← huname]
    exact totalCaloriesFor_joined h hu db.workouts

/-- C2 witness: on the 500/800 demo store the 800-calorie user is listed
first and the displayed totals are the users' workout sums. -/
theorem displayLeaderboard_sorted_witness :
    ((displayLeaderboard lbDB).Pairwise (fun a b => b.2 ≤ a.2) ∧
      ∀ pr ∈ displayLeaderboard lbDB, ∀ u ∈ lbDB.users, u.username = pr.1 →
        pr.2 = ((lbDB.workouts.filter (fun w => w.user_id = u.id)).map
          Workout.calories_burned).sum) ∧
    displayLeaderboard lbDB = [("bob", 800), ("alice", 500)] :=
  ⟨displayLeaderboard_sorted lbDB (by decide), by decide⟩

/-- C9: a username appears on the leaderboard exactly once when its user
has at least one workout row and never otherwise: the inner join drops
registered users who logged nothing instead of listing them with 0. -/
theorem leaderboard_membership (db : DB)
    (h : (db.users.map User.username).Nodup) :
    ((displayLeaderboard db).map Prod.fst).Nodup ∧
    (∀ n : String, n ∈ (displayLeaderboard db).map Prod.fst ↔
      ∃ u ∈ db.users, u.username = n ∧ ∃ w ∈ db.workouts, w.user_id = u.id) ∧
    ∀ u ∈ db.users, (∀ w ∈ db.workouts, w.user_id ≠ u.id) →
      u.username ∉ (displayLeaderboard db).map Prod.fst := by
  have hperm : List.Perm ((displayLeaderboard db).map Prod.fst)
      ((leaderboardRows db).map Prod.fst) := by
    rw [displayLeaderboard]
    exact (List.perm_insertionSort lbRel (leaderboardRows db)).map Prod.fst
  have hfst : (leaderboardRows db).map Prod.fst =
      ((joinedRows db).map Prod.fst).dedup := by
    rw [leaderboardRows, List.map_map]
    have hid : (Prod.fst ∘ fun n : String =>
        (n, totalCaloriesFor (joinedRows db) n)) = id := rfl
    rw [hid, List.map_id]
  have hmem : ∀ n : String, n ∈ (displayLeaderboard db).map Prod.fst ↔
      ∃ u ∈ db.users, u.username = n ∧
        ∃ w ∈ db.workouts, w.user_id = u.id := by
    intro n
    rw [hperm.mem_iff, hfst, List.mem_dedup]
    constructor
    · intro hn
      obtain ⟨pr, hpr, hfstpr⟩ := List.mem_map.mp hn
      obtain ⟨w, hw, hprw⟩ := List.mem_flatMap.mp hpr
      obtain ⟨v, hv, hveq⟩ := List.mem_map.mp hprw
      obtain ⟨hvmem, hvid⟩ := List.mem_filter.mp hv
      refine ⟨v, hvmem, ?_, w, hw, ?_⟩
      · rw [← hfstpr, ← hveq]
      · exact (by simpa using hvid : v.id = w.user_id).symm
    · rintro ⟨u, hu, huname, w, hw, hwid⟩
      apply List.mem_map.mpr
      refine ⟨(u.username, w.calories_burned), ?_, huname⟩
      apply List.mem_flatMap.mpr
      refine ⟨w, hw, List.mem_map.mpr ⟨u, List.mem_filter.mpr
        ⟨hu, by simpa using hwid.symm⟩, rfl⟩⟩
  refine ⟨?_, hmem, ?_⟩
  · exact hperm.nodup_iff.mpr (hfst ▸ List.nodup_dedup ((joinedRows db).map Prod.fst))
  · intro u hu hnw hin
    obtain ⟨u', hu', hname, w, hw, hwid⟩ := (hmem u.username).mp hin
    have : u' = u := List.inj_on_of_nodup_map h hu' hu hname
    exact hnw w hw (this ▸ hwid)

/-- C9 witness: on the demo store "carol" is registered but logged
nothing and is absent from the leaderboard, while "alice" and "bob" each
appear once. -/
theorem leaderboard_membership_witness :
    (((displayLeaderboard demoDB).map Prod.fst).Nodup ∧
      (∀ n : String, n ∈ (displayLeaderboard demoDB).map Prod.fst ↔
        ∃ u ∈ demoDB.users, u.username = n ∧
          ∃ w ∈ demoDB.workouts, w.user_id = u.id) ∧
      ∀ u ∈ demoDB.users, (∀ w ∈ demoDB.workouts, w.user_id ≠ u.id) →
        u.username ∉ (displayLeaderboard demoDB).map Prod.fst) ∧
    (displayLeaderboard demoDB).map Prod.fst = ["bob", "alice"] :=
  ⟨leaderboard_membership demoDB (by decide), by decide⟩

/-- C3: for every user that exists in the `users` table and has zero
workout rows, `generate_report` succeeds and produces a document whose
Total Workouts, Total Duration and Total Calories lines all show 0 and
whose workout-log section contains no per-workout lines. -/
theorem generateReport_no_workouts (db : DB) (uid : Nat)
    (hu : ∃ u ∈ db.users, u.id = uid)
    (hw : ∀ w ∈ db.workouts, w.user_id ≠ uid) :
    ∃ r, generateReport db uid = some r ∧ r.totalWorkouts = 0 ∧
      r.totalDuration = 0 ∧ r.totalCalories = 0 ∧ r.logLines = [] := by
  have hsome : (findUserById db uid).isSome := by
    simpa [findUserById, List.find?_isSome] using hu
  obtain ⟨u, hfind⟩ := Option.isSome_iff_exists.mp hsome
  have hrows : userWorkouts db uid = [] := by
    simp only [userWorkouts, List.filter_eq_nil_iff]
    intro w hwmem
    simpa using hw w hwmem
  refine ⟨{ name := u.name, username := u.username, email := u.email,
            totalWorkouts := 0, totalDuration := 0, totalCalories := 0,
            logLines := [] }, ?_, rfl, rfl, rfl, rfl⟩
  simp [generateReport, hfind, hrows]

/-- C3 witness: "carol" (id 3) is registered on the demo store and has
logged nothing; her report has all-zero totals and an empty log. -/
theorem generateReport_no_workouts_witness :
    ∃ r, generateReport demoDB 3 = some r ∧ r.totalWorkouts = 0 ∧
      r.totalDuration = 0 ∧ r.totalCalories = 0 ∧ r.logLines = [] :=
  generateReport_no_workouts demoDB 3 (by decide) (by decide)

/-- C4: when a user row with the given username already exists, the signup
flow reports the duplicate and leaves the database unchanged (in
particular the `users` table keeps its size); when none exists, it reports
success and inserts exactly one new row into `users`. -/
theorem signup_spec (db : DB) (u p n e : String) :
    ((∃ r ∈ db.users, r.username = u) →
      (signup db u p n e).1 = SignupResult.duplicateUsername ∧
      (signup db u p n e).2 = db) ∧
    ((∀ r ∈ db.users, r.username ≠ u) →
      (signup db u p n e).1 = SignupResult.accountCreated ∧
      (signup db u p n e).2.users.length = db.users.length + 1) := by
  constructor
  · intro hex
    have hs : (checkUser db u).isSome := (checkUser_isSome_iff db u).mpr hex
    simp [signup, hs]
  · intro hnone
    have hs : ¬(checkUser db u).isSome := by
      rw [checkUser_isSome_iff]
      rintro ⟨r, hr, hru⟩
      exact hnone r hr hru
    simp [signup, hs, addUser]

/-- C4 witness: on a store holding only user "alice", signing up as
"alice" is rejected without change while signing up as "bob" adds one
row. -/
theorem signup_spec_witness :
    ((signup ⟨[⟨1, "alice", "pw", "A", "a"⟩], [], [], []⟩
        "alice" "q" "B" "b").1 = SignupResult.duplicateUsername ∧
      (signup ⟨[⟨1, "alice", "pw", "A", "a"⟩], [], [], []⟩
        "alice" "q" "B" "b").2 = ⟨[⟨1, "alice", "pw", "A", "a"⟩], [], [], []⟩) ∧
    ((signup ⟨[⟨1, "alice", "pw", "A", "a"⟩], [], [], []⟩
        "bob" "q" "B" "b").1 = SignupResult.accountCreated ∧
      (signup ⟨[⟨1, "alice", "pw", "A", "a"⟩], [], [], []⟩
        "bob" "q" "B" "b").2.users.length =
        (DB.users ⟨[⟨1, "alice", "pw", "A", "a"⟩], [], [], []⟩).length + 1) :=
  ⟨(signup_spec ⟨[⟨1, "alice", "pw", "A", "a"⟩], [], [], []⟩ "alice" "q" "B" "b").1
      (by decide),
   (signup_spec ⟨[⟨1, "alice", "pw", "A", "a"⟩], [], [], []⟩ "bob" "q" "B" "b").2
      (by decide)⟩

/-- C5: under the store's username-uniqueness invariant, `verify_user`
succeeds exactly when a stored row carries the given username and exactly
the supplied password (case-sensitive string equality), and any record it
returns is that matching row. -/
theorem verifyUser_spec (db : DB) (u p : String)
    (h : (db.users.map User.username).Nodup) :
    (∀ r, verifyUser db u p = some r →
      r ∈ db.users ∧ r.username = u ∧ r.password = p) ∧
    ((verifyUser db u p).isSome ↔
      ∃ r ∈ db.users, r.username = u ∧ r.password = p) := by
  cases hc : checkUser db u with
  | none =>
    have hv : verifyUser db u p = none := by simp [verifyUser, hc]
    have habs : ∀ r ∈ db.users, r.username ≠ u := by
      have := hc
      simp only [checkUser, List.find?_eq_none, decide_eq_true_eq] at this
      exact this
    refine ⟨fun r hr => absurd (hv ▸ hr) (by simp), ?_⟩
    rw [hv]
    simp only [Option.isSome_none, Bool.false_eq_true, false_iff]
    rintro ⟨r, hr, hru, -⟩
    exact habs r hr hru
  | some r0 =>
    have hr0mem : r0 ∈ db.users := List.mem_of_find?_eq_some hc
    have hr0u : r0.username = u := by
      have := List.find?_some hc
      simpa using this
    by_cases hp : r0.password = p
    · have hv : verifyUser db u p = some r0 := by simp [verifyUser, hc, hp]
      refine ⟨?_, ?_⟩
      · intro r hr
        rw [hv] at hr
        cases hr
        exact ⟨hr0mem, hr0u, hp⟩
      · rw [hv]
        simp only [Option.isSome_some, true_iff]
        exact ⟨r0, hr0mem, hr0u, hp⟩
    · have hv : verifyUser db u p = none := by simp [verifyUser, hc, hp]
      refine ⟨fun r hr => absurd (hv ▸ hr) (by simp), ?_⟩
      rw [hv]
      simp only [Option.isSome_none, Bool.false_eq_true, false_iff]
      rintro ⟨r, hr, hru, hrp⟩
      have hreq : r = r0 :=
        List.inj_on_of_nodup_map h hr hr0mem (by rw [hru, hr0u])
      exact hp (hreq ▸ hrp)

/-- C5 witness: with "alice"/"pw" stored, login is checked on the exact
password. -/
theorem verifyUser_spec_witness :
    (∀ r, verifyUser ⟨[⟨1, "alice", "pw", "A", "a"⟩], [], [], []⟩
        "alice" "pw" = some r →
      r ∈ (DB.users ⟨[⟨1, "alice", "pw", "A", "a"⟩], [], [], []⟩) ∧
      r.username = "alice" ∧ r.password = "pw") ∧
    ((verifyUser ⟨[⟨1, "alice", "pw", "A", "a"⟩], [], [], []⟩
        "alice" "pw").isSome ↔
      ∃ r ∈ (DB.users ⟨[⟨1, "alice", "pw", "A", "a"⟩], [], [], []⟩),
        r.username = "alice" ∧ r.password = "pw") :=
  verifyUser_spec ⟨[⟨1, "alice", "pw", "A", "a"⟩], [], [], []⟩
    "alice" "pw" (by decide)

/-- C6: when every stored workout row satisfies duration ≥ 1 and
calories ≥ 0, every operation preserves this; `log_workout` itself
validates nothing, so the new row satisfies the invariant exactly when its
arguments respect the UI minimums (duration ≥ 1, calories ≥ 0). -/
theorem dbInv_preserved (db : DB) (uid cid : Nat)
    (wt un pw nm em npw cn ct : String) (d c g : Int)
    (hdb : DBInv db) :
    (1 ≤ d → 0 ≤ c → DBInv (logWorkout db uid wt d c)) ∧
    DBInv (addUser db un pw nm em) ∧
    DBInv (resetPassword db un npw) ∧
    DBInv (joinChallenge db uid cid) ∧
    DBInv (createChallenge db uid cn g ct) ∧
    DBInv (signup db un pw nm em).2 := by
  refine ⟨?_, ?_, ?_, ?_, ?_, ?_⟩
  · intro hd hc w hw
    simp only [logWorkout, List.mem_append, List.mem_singleton] at hw
    rcases hw with hw | rfl
    · exact hdb w hw
    · exact ⟨hd, hc⟩
  · exact fun w hw => hdb w (by simpa [addUser] using hw)
  · exact fun w hw => hdb w (by simpa [resetPassword] using hw)
  · exact fun w hw => hdb w (by simpa [joinChallenge] using hw)
  · exact fun w hw => hdb w (by simpa [createChallenge] using hw)
  · by_cases hs : (checkUser db un).isSome
    · exact fun w hw => hdb w (by simpa [signup, hs] using hw)
    · exact fun w hw => hdb w (by simpa [signup, hs, addUser] using hw)

/-- C6 witness: logging a 30-minute, 300-calorie workout on a store with
one valid row keeps every row valid; so do the other operations. -/
theorem dbInv_preserved_witness :
    (1 ≤ (30 : Int) → 0 ≤ (300 : Int) →
      DBInv (logWorkout ⟨[], [⟨1, 1, "Yoga", 10, 50⟩], [], []⟩
        1 "Running" 30 300)) ∧
    DBInv (addUser ⟨[], [⟨1, 1, "Yoga", 10, 50⟩], [], []⟩ "u" "p" "n" "e") ∧
    DBInv (resetPassword ⟨[], [⟨1, 1, "Yoga", 10, 50⟩], [], []⟩ "u" "q") ∧
    DBInv (joinChallenge ⟨[], [⟨1, 1, "Yoga", 10, 50⟩], [], []⟩ 1 2) ∧
    DBInv (createChallenge ⟨[], [⟨1, 1, "Yoga", 10, 50⟩], [], []⟩
      1 "10K" 10 "Time-based") ∧
    DBInv (signup ⟨[], [⟨1, 1, "Yoga", 10, 50⟩], [], []⟩ "u" "p" "n" "e").2 :=
  dbInv_preserved ⟨[], [⟨1, 1, "Yoga", 10, 50⟩], [], []⟩ 1 2
    "Running" "u" "p" "n" "e" "q" "10K" "Time-based" 30 300 50
    (by intro w hw; simp only [List.mem_singleton] at hw; subst hw
        exact ⟨by decide, by decide⟩)

/-- C7: `join_challenge` unconditionally appends exactly one
`(user_id, challenge_id)` row to `challenge_participants` — one more row
in total, one more row with exactly those values (duplicates included) —
and touches no other table; no existence or membership check occurs. -/
theorem joinChallenge_spec (db : DB) (uid cid : Nat) :
    (joinChallenge db uid cid).challenge_participants =
      db.challenge_participants ++ [{ user_id := uid, challenge_id := cid }] ∧
    (joinChallenge db uid cid).challenge_participants.length =
      db.challenge_participants.length + 1 ∧
    ((joinChallenge db uid cid).challenge_participants.filter
        (fun r => r.user_id = uid ∧ r.challenge_id = cid)).length =
      (db.challenge_participants.filter
        (fun r => r.user_id = uid ∧ r.challenge_id = cid)).length + 1 ∧
    (joinChallenge db uid cid).users = db.users ∧
    (joinChallenge db uid cid).workouts = db.workouts ∧
    (joinChallenge db uid cid).challenges = db.challenges := by
  refine ⟨rfl, by simp [joinChallenge], ?_, rfl, rfl, rfl⟩
  simp [joinChallenge, List.filter_append]

/-- C8: `reset_password` rewrites the password of exactly the rows whose
username matches, keeps their other fields (id, username, name, email) and
every non-matching row intact, and leaves the other three tables
untouched. -/
theorem resetPassword_spec (db : DB) (un npw : String) :
    List.Forall₂ (fun old new =>
        (old.username = un →
          new.id = old.id ∧ new.username = old.username ∧
          new.name = old.name ∧ new.email = old.email ∧
          new.password = npw) ∧
        (old.username ≠ un → new = old))
      db.users (resetPassword db un npw).users ∧
    (resetPassword db un npw).workouts = db.workouts ∧
    (resetPassword db un npw).challenges = db.challenges ∧
    (resetPassword db un npw).challenge_participants =
      db.challenge_participants := by
  refine ⟨?_, rfl, rfl, rfl⟩
  show List.Forall₂ _ db.users (db.users.map _)
  apply forall2_map_self
  intro a _
  by_cases hm : a.username = un
  · exact ⟨fun _ => by simp [hm], fun hn => absurd hm hn⟩
  · exact ⟨fun hcontra => absurd hcontra hm, fun _ => by simp [hm]⟩

/-- C8 witness: resetting "alice" on a two-user store changes only alice's
password field. -/
theorem resetPassword_spec_witness :
    List.Forall₂ (fun old new =>
        (old.username = "alice" →
          new.id = old.id ∧ new.username = old.username ∧
          new.name = old.name ∧ new.email = old.email ∧
          new.password = "new") ∧
        (old.username ≠ "alice" → new = old))
      (DB.users ⟨[⟨1, "alice", "old", "A", "a"⟩, ⟨2, "bob", "pb", "B", "b"⟩],
        [], [], []⟩)
      (resetPassword ⟨[⟨1, "alice", "old", "A", "a"⟩,
        ⟨2, "bob", "pb", "B", "b"⟩], [], [], []⟩ "alice" "new").users ∧
    (resetPassword ⟨[⟨1, "alice", "old", "A", "a"⟩,
      ⟨2, "bob", "pb", "B", "b"⟩], [], [], []⟩ "alice" "new").workouts = [] ∧
    (resetPassword ⟨[⟨1, "alice", "old", "A", "a"⟩,
      ⟨2, "bob", "pb", "B", "b"⟩], [], [], []⟩ "alice" "new").challenges = [] ∧
    (resetPassword ⟨[⟨1, "alice", "old", "A", "a"⟩,
      ⟨2, "bob", "pb", "B", "b"⟩], [], [], []⟩ "alice"
        "new").challenge_participants = [] :=
  resetPassword_spec ⟨[⟨1, "alice", "old", "A", "a"⟩,
    ⟨2, "bob", "pb", "B", "b"⟩], [], [], []⟩ "alice" "new"

/-- C10: for a username absent from the `users` table, `check_user`
returns `None` and therefore `verify_user` returns `None` for every
password, the conjunction short-circuiting without touching any field of
a missing record. -/
theorem verifyUser_absent_username (db : DB) (u p : String)
    (h : ∀ r ∈ db.users, r.username ≠ u) :
    checkUser db u = none ∧ verifyUser db u p = none := by
  have hc : checkUser db u = none := by
    simp only [checkUser, List.find?_eq_none, decide_eq_true_eq]
    exact h
  exact ⟨hc, by simp [verifyUser, hc]⟩

/-- C10 witness: the empty-store instance, no row matches "ghost". -/
theorem verifyUser_absent_username_witness :
    checkUser ⟨[⟨1, "alice", "pw", "A", "a"⟩], [], [], []⟩ "ghost" = none ∧
    verifyUser ⟨[⟨1, "alice", "pw", "A", "a"⟩], [], [], []⟩ "ghost" "x" = none :=
  verifyUser_absent_username ⟨[⟨1, "alice", "pw", "A", "a"⟩], [], [], []⟩
    "ghost" "x" (by decide)

end FitnessApp
